import Mathlib

/-! Shallow embedding of the Product Availability Coordination subsystem of the
naya-webapp repository: the Firestore-backed reservation service
(`ProductReservationService`), the cart-presence service
(`ProductCartPresenceService`), the availability aggregator
(`useProductAvailability`) and the checkout-timer logic of `CheckoutView.vue`.

Times are modelled in milliseconds as `Nat`.  A Firestore collection is
modelled as a function from document key to an optional document: one document
per key, last write wins, which is exactly the consistency model the services
rely on (`setDoc` overwrites, `deleteDoc` removes, `getDoc` reads). -/

/-- Constant `RESERVATION_DURATION_MS` from `ProductReservationService` (10 minutes). -/
def RESERVATION_DURATION_MS : Nat := 10 * 60 * 1000

/-- Constant `HEARTBEAT_INTERVAL_MS` from `ProductReservationService` (2 minutes). -/
def HEARTBEAT_INTERVAL_MS : Nat := 2 * 60 * 1000

/-- The `ProductReservation` document (`domain/entities/ProductReservation.ts`):
`{ productId, userId, expiresAt, updatedAt }`. -/
structure ProductReservation where
  productId : String
  userId : String
  expiresAt : Nat
  updatedAt : Nat
deriving DecidableEq, Repr

/-- The `PRODUCT_RESERVATIONS` collection: documents are keyed by `productId`
(`getDocRef(productId)`), so there is one reservation document per product. -/
abbrev ReservationStore := String → Option ProductReservation

/-- Effect of `setDoc` on the reservation document of `pid`. -/
def setRes (s : ReservationStore) (pid : String) (r : ProductReservation) :
    ReservationStore :=
  fun q => if q = pid then some r else s q

/-- Effect of `deleteDoc` on the reservation document of `pid`. -/
def delRes (s : ReservationStore) (pid : String) : ReservationStore :=
  fun q => if q = pid then none else s q

/-- The document written by `reserveProducts` / `extendReservations`:
`{ productId, userId, expiresAt: now + RESERVATION_DURATION_MS, updatedAt: now }`. -/
def freshReservation (pid uid : String) (now : Nat) : ProductReservation :=
  { productId := pid, userId := uid,
    expiresAt := now + RESERVATION_DURATION_MS, updatedAt := now }

/-- Method `ProductReservationService.reserveProducts`: guard
`if (productIds.length === 0 || !userId) return;` then an unconditional
`setDoc` per product with a fresh 10-minute expiry. -/
def reserveProducts (pids : List String) (uid : String) (now : Nat)
    (s : ReservationStore) : ReservationStore :=
  if pids.length = 0 ∨ uid = "" then s
  else pids.foldl (fun st pid => setRes st pid (freshReservation pid uid now)) s

/-- The per-document effect of one `extendReservations` iteration, as a function
of the document's previous value: rewrite with a fresh expiry when it exists
and is owned by the caller, otherwise leave it alone. -/
def extendEntry (uid : String) (now : Nat) (q : String) :
    Option ProductReservation → Option ProductReservation
  | some r => if r.userId = uid then some (freshReservation q uid now) else some r
  | none => none

/-- One iteration of `extendReservations`: `getDoc`, then `setDoc` only if the
document exists and `snapshot.data()?.userId === userId`. -/
def extendStep (uid : String) (now : Nat) (st : ReservationStore) (pid : String) :
    ReservationStore :=
  match st pid with
  | some r => if r.userId = uid then setRes st pid (freshReservation pid uid now) else st
  | none => st

/-- Method `ProductReservationService.extendReservations`: guard, then the
read-verify-write step for each product in the list. -/
def extendReservations (pids : List String) (uid : String) (now : Nat)
    (s : ReservationStore) : ReservationStore :=
  if pids.length = 0 ∨ uid = "" then s
  else pids.foldl (extendStep uid now) s

/-- The per-document effect of one `releaseReservations` iteration. -/
def releaseEntry (uid : String) :
    Option ProductReservation → Option ProductReservation
  | some r => if r.userId = uid then none else some r
  | none => none

/-- One iteration of `releaseReservations`: `getDoc`, then `deleteDoc` only if
the document exists and is owned by the caller. -/
def releaseStep (uid : String) (st : ReservationStore) (pid : String) :
    ReservationStore :=
  match st pid with
  | some r => if r.userId = uid then delRes st pid else st
  | none => st

/-- Method `ProductReservationService.releaseReservations`: guard, then the
read-verify-delete step for each product in the list. -/
def releaseReservations (pids : List String) (uid : String)
    (s : ReservationStore) : ReservationStore :=
  if pids.length = 0 ∨ uid = "" then s
  else pids.foldl (releaseStep uid) s

/-- The liveness-and-ownership test of `subscribeToReservedByOthers` applied to
one snapshot: `expiresAt.toMillis() > now.toMillis() && data.userId !== currentUserId`,
and a missing document counts as not reserved. -/
def isReservedByOther (snap : Option ProductReservation) (uid : String)
    (now : Nat) : Bool :=
  match snap with
  | some r => decide (now < r.expiresAt) && decide (r.userId ≠ uid)
  | none => false

/-- An operation of the reservation service, by any holder at any time. -/
inductive ResOp where
  | reserve (pids : List String) (uid : String) (now : Nat)
  | extend (pids : List String) (uid : String) (now : Nat)
  | release (pids : List String) (uid : String)

/-- Apply one service call to the store. -/
def applyOp (s : ReservationStore) : ResOp → ReservationStore
  | .reserve pids uid now => reserveProducts pids uid now s
  | .extend pids uid now => extendReservations pids uid now s
  | .release pids uid => releaseReservations pids uid s

/-- Run a sequence of service calls. -/
def runOps (s : ReservationStore) : List ResOp → ReservationStore
  | [] => s
  | op :: ops => runOps (applyOp s op) ops

/-- The empty collection. -/
def emptyStore : ReservationStore := fun _ => none

/-- States reachable by some interleaving of reserve/extend/release calls. -/
def Reachable (s : ReservationStore) : Prop :=
  ∃ ops : List ResOp, s = runOps emptyStore ops

/-- The set of holders with a live (non-expired) reservation on `p` at `now`. -/
def liveHolders (s : ReservationStore) (p : String) (now : Nat) : Set String :=
  {uid | ∃ r, s p = some r ∧ r.userId = uid ∧ now < r.expiresAt}

-- ### Pointwise characterisations of the three batch operations

theorem setRes_eval (s : ReservationStore) (pid : String) (r : ProductReservation)
    (q : String) : setRes s pid r q = if q = pid then some r else s q := rfl

theorem reserve_foldl (uid : String) (now : Nat) (pids : List String) :
    ∀ (s : ReservationStore) (q : String),
      pids.foldl (fun st pid => setRes st pid (freshReservation pid uid now)) s q
        = if q ∈ pids then some (freshReservation q uid now) else s q := by
  induction pids with
  | nil => intro s q; simp
  | cons p rest ih =>
      intro s q
      simp only [List.foldl_cons, List.mem_cons]
      rw [ih]
      by_cases hq : q ∈ rest
      · simp [hq]
      · by_cases hqp : q = p
        · subst hqp; simp [hq, setRes]
        · simp [hq, hqp, setRes]

theorem extendStep_eval (uid : String) (now : Nat) (st : ReservationStore)
    (pid q : String) :
    extendStep uid now st pid q
      = if q = pid then extendEntry uid now pid (st pid) else st q := by
  unfold extendStep extendEntry
  cases h : st pid with
  | none =>
      by_cases hq : q = pid
      · subst hq; simp [h]
      · simp [hq]
  | some r =>
      by_cases hu : r.userId = uid
      · simp [hu, setRes]
      · by_cases hq : q = pid
        · subst hq; simp [h, hu]
        · simp [hq, hu]

theorem extendEntry_idem (uid : String) (now : Nat) (q : String)
    (v : Option ProductReservation) :
    extendEntry uid now q (extendEntry uid now q v) = extendEntry uid now q v := by
  cases v with
  | none => rfl
  | some r =>
      by_cases hu : r.userId = uid
      · simp [extendEntry, hu, freshReservation]
      · simp [extendEntry, hu]

theorem extend_foldl (uid : String) (now : Nat) (pids : List String) :
    ∀ (s : ReservationStore) (q : String),
      pids.foldl (extendStep uid now) s q
        = if q ∈ pids then extendEntry uid now q (s q) else s q := by
  induction pids with
  | nil => intro s q; simp
  | cons p rest ih =>
      intro s q
      simp only [List.foldl_cons, List.mem_cons]
      rw [ih, extendStep_eval]
      by_cases hq : q ∈ rest
      · by_cases hqp : q = p
        · subst hqp; simp [hq, extendEntry_idem]
        · simp [hq, hqp]
      · by_cases hqp : q = p
        · subst hqp; simp [hq]
        · simp [hq, hqp]

theorem releaseStep_eval (uid : String) (st : ReservationStore) (pid q : String) :
    releaseStep uid st pid q
      = if q = pid then releaseEntry uid (st pid) else st q := by
  unfold releaseStep releaseEntry
  cases h : st pid with
  | none =>
      by_cases hq : q = pid
      · subst hq; simp [h]
      · simp [hq]
  | some r =>
      by_cases hu : r.userId = uid
      · simp [hu, delRes]
      · by_cases hq : q = pid
        · subst hq; simp [h, hu]
        · simp [hq, hu]

theorem releaseEntry_idem (uid : String) (v : Option ProductReservation) :
    releaseEntry uid (releaseEntry uid v) = releaseEntry uid v := by
  cases v with
  | none => rfl
  | some r =>
      by_cases hu : r.userId = uid
      · simp [releaseEntry, hu]
      · simp [releaseEntry, hu]

theorem release_foldl (uid : String) (pids : List String) :
    ∀ (s : ReservationStore) (q : String),
      pids.foldl (releaseStep uid) s q
        = if q ∈ pids then releaseEntry uid (s q) else s q := by
  induction pids with
  | nil => intro s q; simp
  | cons p rest ih =>
      intro s q
      simp only [List.foldl_cons, List.mem_cons]
      rw [ih, releaseStep_eval]
      by_cases hq : q ∈ rest
      · by_cases hqp : q = p
        · subst hqp; simp [hq, releaseEntry_idem]
        · simp [hq, hqp]
      · by_cases hqp : q = p
        · subst hqp; simp [hq]
        · simp [hq, hqp]

theorem reserveProducts_eval (pids : List String) (uid : String) (now : Nat)
    (s : ReservationStore) (q : String) (hu : uid ≠ "") :
    reserveProducts pids uid now s q
      = if q ∈ pids then some (freshReservation q uid now) else s q := by
  unfold reserveProducts
  by_cases hp : pids.length = 0
  · rw [List.length_eq_zero] at hp
    subst hp; simp
  · rw [if_neg (by simp [hp, hu])]
    exact reserve_foldl uid now pids s q

theorem extendReservations_eval (pids : List String) (uid : String) (now : Nat)
    (s : ReservationStore) (q : String) (hu : uid ≠ "") :
    extendReservations pids uid now s q
      = if q ∈ pids then extendEntry uid now q (s q) else s q := by
  unfold extendReservations
  by_cases hp : pids.length = 0
  · rw [List.length_eq_zero] at hp
    subst hp; simp
  · rw [if_neg (by simp [hp, hu])]
    exact extend_foldl uid now pids s q

theorem releaseReservations_eval (pids : List String) (uid : String)
    (s : ReservationStore) (q : String) (hu : uid ≠ "") :
    releaseReservations pids uid s q
      = if q ∈ pids then releaseEntry uid (s q) else s q := by
  unfold releaseReservations
  by_cases hp : pids.length = 0
  · rw [List.length_eq_zero] at hp
    subst hp; simp
  · rw [if_neg (by simp [hp, hu])]
    exact release_foldl uid pids s q

/-- C1: the reservation collection keys documents by product ID, so every
reachable state has at most one reservation document per product, hence at
most one holder with a live (non-expired) reservation on any product at any
instant, whatever interleaving of reserve/extend/release calls produced the
state. -/
theorem mutual_exclusion_of_live_reservations (s : ReservationStore)
    (_h : Reachable s) (p : String) (now : Nat) :
    (liveHolders s p now).Subsingleton := by
  intro u1 h1 u2 h2
  obtain ⟨r1, hr1, hu1, _⟩ := h1
  obtain ⟨r2, hr2, hu2, _⟩ := h2
  rw [hr1] at hr2
  cases Option.some.inj hr2
  rw [← hu1, ← hu2]

theorem mutual_exclusion_of_live_reservations_witness :
    Reachable emptyStore ∧ (liveHolders emptyStore "p1" 0).Subsingleton :=
  ⟨⟨[], rfl⟩, mutual_exclusion_of_live_reservations emptyStore ⟨[], rfl⟩ "p1" 0⟩

-- ### Concrete stores used by the witnesses

/-- A store holding one live-until-100 reservation on product `a` by `u`. -/
def exampleStoreA : ReservationStore :=
  fun q => if q = "a" then
    some { productId := "a", userId := "u", expiresAt := 100, updatedAt := 0 }
  else none

/-- A store holding one reservation on product `a` by `u` already expired at 5. -/
def exampleStoreExpired : ReservationStore :=
  fun q => if q = "a" then
    some { productId := "a", userId := "u", expiresAt := 5, updatedAt := 0 }
  else none

/-- C3: for a non-empty product list and non-empty holder, `reserveProducts`
writes, for every product in the list, the document
`{productId, userId, expiresAt = now + 10min, updatedAt = now}` and touches no
other document; with an empty list or empty holder it is a silent no-op. -/
theorem reserve_postcondition_and_guard (pids : List String) (uid : String)
    (now : Nat) (s : ReservationStore) :
    (pids ≠ [] → uid ≠ "" →
      (∀ pid ∈ pids, reserveProducts pids uid now s pid =
          some { productId := pid, userId := uid,
                 expiresAt := now + RESERVATION_DURATION_MS, updatedAt := now }) ∧
      (∀ q, q ∉ pids → reserveProducts pids uid now s q = s q)) ∧
    ((pids = [] ∨ uid = "") → reserveProducts pids uid now s = s) := by
  constructor
  · intro _ hu
    constructor
    · intro pid hmem
      rw [reserveProducts_eval pids uid now s pid hu, if_pos hmem]
      rfl
    · intro q hq
      rw [reserveProducts_eval pids uid now s q hu, if_neg hq]
  · intro h
    rcases h with h | h
    · subst h; simp [reserveProducts]
    · simp [reserveProducts, h]

theorem reserve_postcondition_and_guard_witness :
    (["a"] : List String) ≠ [] ∧ ("u" : String) ≠ "" ∧
    reserveProducts ["a"] "u" 3 emptyStore "a" =
      some { productId := "a", userId := "u",
             expiresAt := 3 + RESERVATION_DURATION_MS, updatedAt := 3 } ∧
    reserveProducts [] "u" 3 emptyStore = emptyStore := by
  refine ⟨by decide, by decide, ?_, ?_⟩
  · exact ((reserve_postcondition_and_guard ["a"] "u" 3 emptyStore).1
      (by decide) (by decide)).1 "a" (by decide)
  · exact (reserve_postcondition_and_guard [] "u" 3 emptyStore).2 (Or.inl rfl)

/-- C4: for every product in the list, `extendReservations` rewrites the
reservation with a fresh 10-minute expiry exactly when it exists and is owned
by the caller, silently skips it otherwise, and touches no document outside
the list. -/
theorem extend_semantics (pids : List String) (uid : String) (now : Nat)
    (s : ReservationStore) (hu : uid ≠ "") :
    (∀ pid ∈ pids, extendReservations pids uid now s pid =
        match s pid with
        | some r =>
            if r.userId = uid then
              some { productId := pid, userId := uid,
                     expiresAt := now + RESERVATION_DURATION_MS, updatedAt := now }
            else some r
        | none => none) ∧
    (∀ q, q ∉ pids → extendReservations pids uid now s q = s q) := by
  constructor
  · intro pid hmem
    rw [extendReservations_eval pids uid now s pid hu, if_pos hmem]
    cases h : s pid with
    | none => rfl
    | some r => rfl
  · intro q hq
    rw [extendReservations_eval pids uid now s q hu, if_neg hq]

theorem extend_semantics_witness :
    ("u" : String) ≠ "" ∧
    extendReservations ["a", "b"] "u" 7 exampleStoreA "a" =
      some { productId := "a", userId := "u",
             expiresAt := 7 + RESERVATION_DURATION_MS, updatedAt := 7 } ∧
    extendReservations ["a", "b"] "u" 7 exampleStoreA "b" = none := by
  refine ⟨by decide, ?_, ?_⟩
  · exact (((extend_semantics ["a", "b"] "u" 7 exampleStoreA (by decide)).1
      "a" (by decide)).trans (by decide))
  · exact (((extend_semantics ["a", "b"] "u" 7 exampleStoreA (by decide)).1
      "b" (by decide)).trans (by decide))

/-- C5: `releaseReservations` deletes a product's reservation exactly when it
exists and is owned by the caller and is a no-op otherwise; releasing twice in
a row equals releasing once, and afterwards no reservation owned by the caller
remains on any product of the list. -/
theorem release_idempotence_and_guard (pids : List String) (uid : String)
    (s : ReservationStore) (hu : uid ≠ "") :
    (∀ pid ∈ pids, releaseReservations pids uid s pid =
        match s pid with
        | some r => if r.userId = uid then none else some r
        | none => none) ∧
    (∀ q, q ∉ pids → releaseReservations pids uid s q = s q) ∧
    releaseReservations pids uid (releaseReservations pids uid s)
      = releaseReservations pids uid s ∧
    (∀ pid ∈ pids, ∀ r, releaseReservations pids uid s pid = some r →
      r.userId ≠ uid) := by
  refine ⟨?_, ?_, ?_, ?_⟩
  · intro pid hmem
    rw [releaseReservations_eval pids uid s pid hu, if_pos hmem]
    cases h : s pid with
    | none => rfl
    | some r => rfl
  · intro q hq
    rw [releaseReservations_eval pids uid s q hu, if_neg hq]
  · funext q
    rw [releaseReservations_eval pids uid _ q hu,
      releaseReservations_eval pids uid s q hu]
    by_cases hq : q ∈ pids
    · simp [hq, releaseEntry_idem]
    · simp [hq]
  · intro pid hmem r heq
    rw [releaseReservations_eval pids uid s pid hu, if_pos hmem] at heq
    cases h : s pid with
    | none => rw [h] at heq; exact absurd heq (by simp [releaseEntry])
    | some r0 =>
        rw [h] at heq
        by_cases hown : r0.userId = uid
        · rw [releaseEntry, if_pos hown] at heq
          exact absurd heq (by simp)
        · rw [releaseEntry, if_neg hown] at heq
          cases Option.some.inj heq
          exact hown

theorem release_idempotence_and_guard_witness :
    ("u" : String) ≠ "" ∧
    releaseReservations ["a"] "u" exampleStoreA "a" = none ∧
    releaseReservations ["a"] "u" (releaseReservations ["a"] "u" exampleStoreA)
      = releaseReservations ["a"] "u" exampleStoreA := by
  refine ⟨by decide, ?_, ?_⟩
  · exact (((release_idempotence_and_guard ["a"] "u" exampleStoreA (by decide)).1
      "a" (by decide)).trans (by decide))
  · exact (release_idempotence_and_guard ["a"] "u" exampleStoreA
      (by decide)).2.2.1

/-- C10: `extendReservations` never checks liveness, so a reservation owned by
the caller whose expiry is already in the past — which `isReservedByOther`
reports as absent to every other observer — is rewritten with a fresh
10-minute expiry and is live again for other observers afterwards. -/
theorem expired_reservation_resurrected_by_extend (pids : List String)
    (uid observer : String) (now : Nat) (s : ReservationStore)
    (r : ProductReservation) (pid : String)
    (hmem : pid ∈ pids) (hu : uid ≠ "") (hr : s pid = some r)
    (hown : r.userId = uid) (hexp : r.expiresAt ≤ now) (hobs : observer ≠ uid) :
    isReservedByOther (s pid) observer now = false ∧
    extendReservations pids uid now s pid =
      some { productId := pid, userId := uid,
             expiresAt := now + RESERVATION_DURATION_MS, updatedAt := now } ∧
    isReservedByOther (extendReservations pids uid now s pid) observer now
      = true := by
  have hlt : ¬ (now < r.expiresAt) := Nat.not_lt.mpr hexp
  have hne : uid ≠ observer := fun h => hobs h.symm
  have hext : extendReservations pids uid now s pid =
      some { productId := pid, userId := uid,
             expiresAt := now + RESERVATION_DURATION_MS, updatedAt := now } := by
    rw [extendReservations_eval pids uid now s pid hu, if_pos hmem, hr]
    simp [extendEntry, hown, freshReservation]
  refine ⟨?_, hext, ?_⟩
  · rw [hr]; simp [isReservedByOther, hlt]
  · rw [hext]
    simp [isReservedByOther, hne, RESERVATION_DURATION_MS]

theorem expired_reservation_resurrected_by_extend_witness :
    isReservedByOther (exampleStoreExpired "a") "v" 10 = false ∧
    extendReservations ["a"] "u" 10 exampleStoreExpired "a" =
      some { productId := "a", userId := "u",
             expiresAt := 10 + RESERVATION_DURATION_MS, updatedAt := 10 } ∧
    isReservedByOther (extendReservations ["a"] "u" 10 exampleStoreExpired "a")
      "v" 10 = true :=
  expired_reservation_resurrected_by_extend ["a"] "u" "v" 10 exampleStoreExpired
    { productId := "a", userId := "u", expiresAt := 5, updatedAt := 0 } "a"
    (by decide) (by decide) (by decide) (by decide) (by decide) (by decide)

-- ### Cart presence service (`ProductCartPresenceService.ts`)

/-- The `CartPresence` document: `{ productId, userId, updatedAt }`. -/
structure CartPresence where
  productId : String
  userId : String
  updatedAt : Nat
deriving DecidableEq, Repr

/-- Helper `getDocId`: the document key is `productId_userId`. -/
def presenceDocId (pid uid : String) : String := pid ++ "_" ++ uid

/-- The `PRODUCT_CART_PRESENCE` collection, keyed by `productId_userId`. -/
abbrev PresenceStore := String → Option CartPresence

/-- Method `ProductCartPresenceService.addPresence`: guard
`if (!productId || !userId) return;` then `setDoc` of
`{productId, userId, updatedAt: Timestamp.now()}`. -/
def addPresence (pid uid : String) (now : Nat) (s : PresenceStore) :
    PresenceStore :=
  if pid = "" ∨ uid = "" then s
  else fun k =>
    if k = presenceDocId pid uid then
      some { productId := pid, userId := uid, updatedAt := now }
    else s k

/-- Method `ProductCartPresenceService.removePresence`: guard then `deleteDoc`. -/
def removePresence (pid uid : String) (s : PresenceStore) : PresenceStore :=
  if pid = "" ∨ uid = "" then s
  else fun k => if k = presenceDocId pid uid then none else s k

/-- The empty presence collection. -/
def emptyPresenceStore : PresenceStore := fun _ => none

theorem presenceDocId_inj (uid : String) {p q : String}
    (h : presenceDocId p uid = presenceDocId q uid) : p = q := by
  unfold presenceDocId at h
  have hd : ((p ++ "_") ++ uid).data = ((q ++ "_") ++ uid).data := by rw [h]
  simp only [String.data_append] at hd
  exact String.ext (List.append_cancel_right (List.append_cancel_right hd))

/-- C9: repeated `addPresence` leaves the store exactly as a single
`addPresence` does (last write wins on the `productId_userId` document), and
repeated `removePresence` equals a single `removePresence`; after the repeated
create the document exists with the last write's timestamp, and after the
repeated delete it is absent.  Neither call can fail. -/
theorem presence_idempotence (pid uid : String) (t1 t2 : Nat)
    (s : PresenceStore) :
    addPresence pid uid t2 (addPresence pid uid t1 s) = addPresence pid uid t2 s ∧
    removePresence pid uid (removePresence pid uid s) = removePresence pid uid s ∧
    (pid ≠ "" → uid ≠ "" →
      addPresence pid uid t2 (addPresence pid uid t1 s) (presenceDocId pid uid)
        = some { productId := pid, userId := uid, updatedAt := t2 } ∧
      removePresence pid uid (removePresence pid uid s) (presenceDocId pid uid)
        = none) := by
  by_cases hg : pid = "" ∨ uid = ""
  · refine ⟨?_, ?_, ?_⟩
    · simp [addPresence, hg]
    · simp [removePresence, hg]
    · intro hp hu
      exact absurd hg (by simp [hp, hu])
  · refine ⟨?_, ?_, ?_⟩
    · funext k
      simp only [addPresence, if_neg hg]
      by_cases hk : k = presenceDocId pid uid <;> simp [hk]
    · funext k
      simp only [removePresence, if_neg hg]
      by_cases hk : k = presenceDocId pid uid <;> simp [hk]
    · intro _ _
      constructor
      · simp [addPresence, if_neg hg]
      · simp [removePresence, if_neg hg]

theorem presence_idempotence_witness :
    ("p1" : String) ≠ "" ∧ ("u1" : String) ≠ "" ∧
    addPresence "p1" "u1" 9 (addPresence "p1" "u1" 4 emptyPresenceStore)
      (presenceDocId "p1" "u1")
      = some { productId := "p1", userId := "u1", updatedAt := 9 } ∧
    removePresence "p1" "u1" (removePresence "p1" "u1" emptyPresenceStore)
      (presenceDocId "p1" "u1") = none := by
  refine ⟨by decide, by decide, ?_⟩
  exact (presence_idempotence "p1" "u1" 4 9 emptyPresenceStore).2.2
    (by decide) (by decide)

-- ### `releaseOnLeave` from `CheckoutView.vue`

/-- The `ids.forEach((id) => productCartPresenceService.addPresence(id, uid))`
loop of `releaseOnLeave`, restoring a bag-presence row per product. -/
def addPresences (ids : List String) (uid : String) (now : Nat)
    (ps : PresenceStore) : PresenceStore :=
  ids.foldl (fun s pid => addPresence pid uid now s) ps

/-- Function `releaseOnLeave`: returns unchanged stores when
`isRedirectingToPayment.value` is set; otherwise, when the session has product
ids and a signed-in holder, releases the reservations and restores one
presence row per product.  `ids` is the component's `reservedProductIds`
(falling back to the payable item ids) and `uid` is `user.value?.uid`. -/
def releaseOnLeave (redirecting : Bool) (ids : List String) (uid : String)
    (now : Nat) (rs : ReservationStore) (ps : PresenceStore) :
    ReservationStore × PresenceStore :=
  if redirecting then (rs, ps)
  else if 0 < ids.length ∧ uid ≠ "" then
    (releaseReservations ids uid rs, addPresences ids uid now ps)
  else (rs, ps)

theorem addPresences_untouched (uid : String) (now : Nat) :
    ∀ (ids : List String) (ps : PresenceStore) (k : String),
      (∀ q ∈ ids, k ≠ presenceDocId q uid) →
      addPresences ids uid now ps k = ps k := by
  intro ids
  induction ids with
  | nil => intro ps k _; rfl
  | cons p rest ih =>
      intro ps k hk
      have hrest : ∀ q ∈ rest, k ≠ presenceDocId q uid := by
        intro q hq
        exact hk q (List.mem_cons_of_mem p hq)
      show addPresences rest uid now (addPresence p uid now ps) k = ps k
      rw [ih (addPresence p uid now ps) k hrest]
      unfold addPresence
      by_cases hg : p = "" ∨ uid = ""
      · rw [if_pos hg]
      · rw [if_neg hg, if_neg (hk p (List.mem_cons_self p rest))]

theorem addPresences_present (uid : String) (now : Nat) :
    ∀ (ids : List String) (ps : PresenceStore), ∀ pid ∈ ids, pid ≠ "" → uid ≠ "" →
      addPresences ids uid now ps (presenceDocId pid uid)
        = some { productId := pid, userId := uid, updatedAt := now } := by
  intro ids
  induction ids with
  | nil => intro ps pid hmem; exact absurd hmem (List.not_mem_nil pid)
  | cons p rest ih =>
      intro ps pid hmem hpid hu
      rcases List.mem_cons.mp hmem with hp | hp
      · subst hp
        by_cases hr : pid ∈ rest
        · exact ih (addPresence pid uid now ps) pid hr hpid hu
        · have huntouched : ∀ q ∈ rest, presenceDocId pid uid ≠ presenceDocId q uid := by
            intro q hq heq
            exact hr (presenceDocId_inj uid heq ▸ hq)
          show addPresences rest uid now (addPresence pid uid now ps)
              (presenceDocId pid uid) = _
          rw [addPresences_untouched uid now rest _ _ huntouched]
          unfold addPresence
          rw [if_neg (by simp [hpid, hu]), if_pos rfl]
      · exact ih (addPresence p uid now ps) pid hp hpid hu

/-- Shared helper: after `releaseReservations`, no product of the list carries
a reservation owned by the caller. -/
theorem releaseReservations_no_owned (pids : List String) (uid : String)
    (s : ReservationStore) (hu : uid ≠ "") :
    ∀ pid ∈ pids, ∀ r, releaseReservations pids uid s pid = some r →
      r.userId ≠ uid := by
  intro pid hmem r heq
  rw [releaseReservations_eval pids uid s pid hu, if_pos hmem] at heq
  cases h : s pid with
  | none => rw [h] at heq; exact absurd heq (by simp [releaseEntry])
  | some r0 =>
      rw [h] at heq
      by_cases hown : r0.userId = uid
      · rw [releaseEntry, if_pos hown] at heq
        exact absurd heq (by simp)
      · rw [releaseEntry, if_neg hown] at heq
        cases Option.some.inj heq
        exact hown

/-- C8: with the successful-redirect flag set, `releaseOnLeave` changes
neither the reservation store nor the presence store; without it, every
reservation of the session's product list owned by the holder is deleted and
a `CartPresence` row is restored for every product of the list (in particular
for every released product). -/
theorem release_on_leave_and_redirect_suppression (ids : List String)
    (uid : String) (now : Nat) (rs : ReservationStore) (ps : PresenceStore)
    (hids : ∀ pid ∈ ids, pid ≠ "") (hu : uid ≠ "") :
    releaseOnLeave true ids uid now rs ps = (rs, ps) ∧
    (∀ pid ∈ ids, ∀ r,
      (releaseOnLeave false ids uid now rs ps).1 pid = some r →
        r.userId ≠ uid) ∧
    (∀ pid ∈ ids,
      (releaseOnLeave false ids uid now rs ps).2 (presenceDocId pid uid)
        = some { productId := pid, userId := uid, updatedAt := now }) := by
  refine ⟨rfl, ?_, ?_⟩
  · intro pid hmem r heq
    have hlen : 0 < ids.length := List.length_pos.mpr (List.ne_nil_of_mem hmem)
    rw [releaseOnLeave, if_neg (by simp), if_pos ⟨hlen, hu⟩] at heq
    exact releaseReservations_no_owned ids uid rs hu pid hmem r heq
  · intro pid hmem
    have hlen : 0 < ids.length := List.length_pos.mpr (List.ne_nil_of_mem hmem)
    rw [releaseOnLeave, if_neg (by simp), if_pos ⟨hlen, hu⟩]
    exact addPresences_present uid now ids ps pid hmem (hids pid hmem) hu

theorem release_on_leave_and_redirect_suppression_witness :
    ("a" : String) ≠ "" ∧ ("u" : String) ≠ "" ∧
    releaseOnLeave true ["a"] "u" 2 exampleStoreA emptyPresenceStore
      = (exampleStoreA, emptyPresenceStore) ∧
    (releaseOnLeave false ["a"] "u" 2 exampleStoreA emptyPresenceStore).2
      (presenceDocId "a" "u")
      = some { productId := "a", userId := "u", updatedAt := 2 } := by
  refine ⟨by decide, by decide, ?_, ?_⟩
  · exact (release_on_leave_and_redirect_suppression ["a"] "u" 2 exampleStoreA
      emptyPresenceStore (by decide) (by decide)).1
  · exact (release_on_leave_and_redirect_suppression ["a"] "u" 2 exampleStoreA
      emptyPresenceStore (by decide) (by decide)).2.2 "a" (by decide)

-- ### Availability aggregator (`subscribeToInOthersCart` + `useProductAvailability`)

/-- Predicate of `checkProduct`: some document of the presence
collection matches `productId == pid` and `d.data().userId !== currentUserId`. -/
def otherHasInCart (docs : List CartPresence) (uid pid : String) : Bool :=
  (docs.filter (fun d => d.productId == pid)).any (fun d => d.userId != uid)

/-- The two reactive sets of `useProductAvailability` as delivered to the
observer: `inCheckoutByOthers` (locked) and `inCartByOthers` (wanted). -/
structure AvailState where
  inCheckoutByOthers : Finset String
  inCartByOthers : Finset String

/-- A change on one of the two underlying subscription streams.
`reservationUpdate` is the reservation stream's callback assigning
`inCheckoutByOthers.value`; `presenceRecheck` is `recheck` of
`subscribeToInOthersCart` firing on a cart-presence snapshot, which
recomputes every subscribed product against the presence collection `docs`
and the locked set read through `getReservedByOthers()`. -/
inductive AvailEvent where
  | reservationUpdate (reserved : Finset String)
  | presenceRecheck (docs : List CartPresence)

/-- Process one stream change, as `useProductAvailability` wires the two
callbacks: a reservation change only replaces the locked set; a presence
change recomputes the wanted set, de-duplicating against the locked set as it
is at that moment (`otherHasIt && !reserved.has(productId)`). -/
def availStep (pids : List String) (uid : String) (st : AvailState) :
    AvailEvent → AvailState
  | .reservationUpdate reserved => { st with inCheckoutByOthers := reserved }
  | .presenceRecheck docs =>
      { st with inCartByOthers :=
          (pids.filter (fun pid =>
            otherHasInCart docs uid pid
              && !(decide (pid ∈ st.inCheckoutByOthers)))).toFinset }

/-- Run a sequence of stream changes from the initial empty sets. -/
def runAvail (pids : List String) (uid : String) (evs : List AvailEvent) :
    AvailState :=
  evs.foldl (availStep pids uid) ⟨∅, ∅⟩

/-- A trace violating C2 as stated: another holder's bag presence on `p1` is
delivered as wanted, then a reservation by another holder arrives; the wanted
set is not re-evaluated, so `p1` is in both delivered sets at once. -/
def availExampleEvents : List AvailEvent :=
  [.presenceRecheck [{ productId := "p1", userId := "u2", updatedAt := 0 }],
   .reservationUpdate {"p1"}]

theorem locked_wanted_disjointness_counterexample :
    "p1" ∈ (runAvail ["p1"] "me" availExampleEvents).inCheckoutByOthers ∧
    "p1" ∈ (runAvail ["p1"] "me" availExampleEvents).inCartByOthers := by
  decide

/-- C2 (amended): every re-evaluation of the wanted set — which happens only
on cart-presence changes, not on changes of the externally supplied locked
set — delivers a wanted set disjoint from the locked set read at that moment,
so immediately after any presence recheck no product is in both sets. -/
theorem locked_wanted_disjoint_after_presence_recheck (pids : List String)
    (uid : String) (evs : List AvailEvent) (docs : List CartPresence) :
    (runAvail pids uid (evs ++ [.presenceRecheck docs])).inCheckoutByOthers ∩
      (runAvail pids uid (evs ++ [.presenceRecheck docs])).inCartByOthers
      = ∅ := by
  rw [Finset.eq_empty_iff_forall_not_mem]
  intro pid hmem
  rw [Finset.mem_inter] at hmem
  obtain ⟨h1, h2⟩ := hmem
  simp only [runAvail, List.foldl_append, List.foldl_cons, List.foldl_nil]
    at h1 h2
  simp only [availStep] at h1 h2
  rw [List.mem_toFinset, List.mem_filter] at h2
  obtain ⟨-, hpred⟩ := h2
  rw [Bool.and_eq_true, Bool.not_eq_true', decide_eq_false_iff_not] at hpred
  exact hpred.2 h1

-- ### `subscribeToReservedByOthers` (per-product snapshot cache + notify)

/-- One processed `onSnapshot` notification: the per-product listener of
`subscribeToReservedByOthers` for `pid` fires against the reservation
collection `store` with `Timestamp.now()` equal to `now`. -/
structure SubEvent where
  pid : String
  store : ReservationStore
  now : Nat

/-- The `cached` map of `subscribeToReservedByOthers`; `none` means the
product has not been notified yet. -/
abbrev SubCache := String → Option Bool

/-- Process one notification: re-evaluate only the notified product, caching
`isValid && isOthers` for it. -/
def subStep (uid : String) (c : SubCache) (e : SubEvent) : SubCache :=
  fun q =>
    if q = e.pid then some (isReservedByOther (e.store e.pid) uid e.now)
    else c q

/-- Run a sequence of notifications from the initially empty cache. -/
def runSub (uid : String) (evs : List SubEvent) : SubCache :=
  evs.foldl (subStep uid) (fun _ => none)

/-- Function `notify`: a product is in the delivered set iff it is cached as reserved. -/
def deliveredReserved (c : SubCache) (pid : String) : Bool :=
  (c pid).getD false

/-- The per-product evaluation recorded by the most recent notification for
`pid` in the trace, if any. -/
def lastEvalFor (uid pid : String) : List SubEvent → Option Bool
  | [] => none
  | e :: rest =>
      match lastEvalFor uid pid rest with
      | some b => some b
      | none =>
          if e.pid = pid then
            some (isReservedByOther (e.store pid) uid e.now)
          else none

/-- A store with one reservation on `q1` by `u2`, expiring at 10. -/
def subExampleStore : ReservationStore :=
  fun q => if q = "q1" then
    some { productId := "q1", userId := "u2", expiresAt := 10, updatedAt := 0 }
  else none

/-- The `q1` listener fires at clock 5 (reservation live), then the `p1`
listener fires at clock 20, after `q1`'s reservation has silently expired. -/
def subExampleEvents : List SubEvent :=
  [{ pid := "q1", store := subExampleStore, now := 5 },
   { pid := "p1", store := subExampleStore, now := 20 }]

theorem subscribe_reserved_exactness_counterexample :
    deliveredReserved (runSub "me" subExampleEvents) "q1" = true ∧
    isReservedByOther (subExampleStore "q1") "me" 20 = false := by
  decide

theorem runSub_eval (uid pid : String) :
    ∀ (evs : List SubEvent) (c : SubCache),
      (evs.foldl (subStep uid) c) pid =
        match lastEvalFor uid pid evs with
        | some b => some b
        | none => c pid := by
  intro evs
  induction evs with
  | nil => intro c; rfl
  | cons e rest ih =>
      intro c
      show (rest.foldl (subStep uid) (subStep uid c e)) pid = _
      rw [ih (subStep uid c e)]
      cases h : lastEvalFor uid pid rest with
      | some b => simp [lastEvalFor, h]
      | none =>
          simp only [lastEvalFor, h]
          by_cases hp : e.pid = pid
          · subst hp; simp [subStep]
          · have hp2 : pid ≠ e.pid := fun hh => hp hh.symm
            simp [subStep, hp, hp2]

/-- C6 (amended): the set delivered to the callback contains exactly the
subscribed products whose most recent processed notification evaluated
`expiresAt > now && userId != observer` against the store state and clock of
that notification; products with no newer notification keep their previous
evaluation (so a reservation that expires with no further document change is
still reported until its next notification), and an expired-but-undeleted
reservation is treated as absent by the evaluation itself. -/
theorem subscribe_reserved_last_notification (uid : String)
    (evs : List SubEvent) (pid : String) :
    deliveredReserved (runSub uid evs) pid
      = (lastEvalFor uid pid evs).getD false ∧
    (∀ (r : ProductReservation) (t : Nat), r.expiresAt ≤ t →
      isReservedByOther (some r) uid t = false) := by
  constructor
  · unfold deliveredReserved runSub
    rw [runSub_eval uid pid evs]
    cases h : lastEvalFor uid pid evs with
    | some b => rfl
    | none => rfl
  · intro r t ht
    simp [isReservedByOther, Nat.not_lt.mpr ht]

theorem subscribe_reserved_last_notification_witness :
    ({ productId := "q1", userId := "u2", expiresAt := 10, updatedAt := 0 } :
        ProductReservation).expiresAt ≤ 20 ∧
    deliveredReserved (runSub "me" subExampleEvents) "q1"
      = (lastEvalFor "me" "q1" subExampleEvents).getD false ∧
    isReservedByOther
      (some { productId := "q1", userId := "u2", expiresAt := 10, updatedAt := 0 })
      "me" 20 = false := by
  refine ⟨by decide, ?_, ?_⟩
  · exact (subscribe_reserved_last_notification "me" subExampleEvents "q1").1
  · exact (subscribe_reserved_last_notification "me" subExampleEvents "q1").2
      { productId := "q1", userId := "u2", expiresAt := 10, updatedAt := 0 }
      20 (by decide)

-- ### Checkout countdown (`CheckoutView.vue`)

/-- Constant `RESERVATION_MS` from `CheckoutView.vue` (10 minutes). -/
def RESERVATION_MS : Nat := 10 * 60 * 1000

/-- The checkout component's timer-related state: the sessionStorage value
`naya_checkout_expires_at`, the countdown closure's `expiresAt` variable
(`none` when no countdown interval is running), the displayed
`timeRemainingSeconds`, the expiry-alert flag, the redirect flag and the
reservation collection. -/
structure CheckoutTimerState where
  storedExpiresAt : Option Nat
  timerExpiresAt : Option Nat
  displayedSeconds : Option Nat
  showExpiryAlert : Bool
  isRedirectingToPayment : Bool
  reservations : ReservationStore

/-- Function `updateCountdown` at clock `now`: recompute
`max(0, floor((expiresAt - now) / 1000))` from the closure's `expiresAt`; on
zero, stop the interval, blank the display and (unless mid-redirect) raise
the expiry alert. -/
def updateCountdown (now : Nat) (st : CheckoutTimerState) : CheckoutTimerState :=
  match st.timerExpiresAt with
  | none => st
  | some e =>
      if (e - now) / 1000 = 0 then
        { st with
          timerExpiresAt := none,
          displayedSeconds := none,
          showExpiryAlert :=
            if st.isRedirectingToPayment then st.showExpiryAlert else true }
      else { st with displayedSeconds := some ((e - now) / 1000) }

/-- The choice `startReservationTimer` makes of `expiresAt`: reuse the stored value
when still in the future, otherwise fall back to `now + RESERVATION_MS`. -/
def startTimerExpiry (stored : Option Nat) (now : Nat) : Nat :=
  match stored with
  | some x => if now < x then x else now + RESERVATION_MS
  | none => now + RESERVATION_MS

/-- Function `startReservationTimer` at clock `now`: `clearTimers()`, pick `expiresAt`
(persisting it), start the countdown and run `updateCountdown` once. -/
def startReservationTimer (now : Nat) (st : CheckoutTimerState) :
    CheckoutTimerState :=
  updateCountdown now
    { st with
      storedExpiresAt := some (startTimerExpiry st.storedExpiresAt now),
      timerExpiresAt := some (startTimerExpiry st.storedExpiresAt now),
      displayedSeconds := none }

/-- One tick of the countdown interval. -/
def countdownTick (now : Nat) (st : CheckoutTimerState) : CheckoutTimerState :=
  updateCountdown now st

/-- The heartbeat interval body of `setupReservations`:
`extendReservations` then `storeExpiresAt(Date.now() + RESERVATION_MS)`.  The
running countdown interval and its closure variable are not touched. -/
def heartbeatTick (pids : List String) (uid : String) (now : Nat)
    (st : CheckoutTimerState) : CheckoutTimerState :=
  { st with
    reservations := extendReservations pids uid now st.reservations,
    storedExpiresAt := some (now + RESERVATION_MS) }

/-- Handler `handleExtendReservation`: cancel the auto-release timer, hide the alert,
`extendReservations`, `storeExpiresAt(Date.now() + RESERVATION_MS)`, then
`startReservationTimer()`. -/
def handleExtendReservation (pids : List String) (uid : String) (now : Nat)
    (st : CheckoutTimerState) : CheckoutTimerState :=
  startReservationTimer now
    { st with
      showExpiryAlert := false,
      reservations := extendReservations pids uid now st.reservations,
      storedExpiresAt := some (now + RESERVATION_MS) }

/-- The checkout state right after `setupReservations` reserves `p1` for `u`
at clock 0 and starts the countdown: display shows 600 seconds. -/
def checkoutExampleState0 : CheckoutTimerState :=
  startReservationTimer 0
    { storedExpiresAt := some RESERVATION_MS,
      timerExpiresAt := none,
      displayedSeconds := none,
      showExpiryAlert := false,
      isRedirectingToPayment := false,
      reservations := reserveProducts ["p1"] "u" 0 emptyStore }

/-- Two minutes in: the countdown has ticked down to 480 seconds and the
first heartbeat fires a successful extend. -/
def checkoutExampleState1 : CheckoutTimerState :=
  heartbeatTick ["p1"] "u" 120000 (countdownTick 120000 checkoutExampleState0)

theorem countdown_reset_on_extend_counterexample :
    checkoutExampleState1.reservations "p1" =
      some { productId := "p1", userId := "u",
             expiresAt := 120000 + RESERVATION_DURATION_MS,
             updatedAt := 120000 } ∧
    checkoutExampleState1.displayedSeconds = some 480 ∧
    checkoutExampleState1.displayedSeconds ≠ some 600 := by
  refine ⟨by decide, by decide, by decide⟩

/-- C7 (amended): only the explicit user-confirmed extend
(`handleExtendReservation`) resets the displayed remaining time to exactly
10 minutes (600 seconds); a heartbeat extend refreshes the stored expiry but
leaves the displayed countdown untouched. -/
theorem countdown_reset_on_explicit_extend_only (pids : List String)
    (uid : String) (now : Nat) (st : CheckoutTimerState) :
    (handleExtendReservation pids uid now st).displayedSeconds = some 600 ∧
    (heartbeatTick pids uid now st).displayedSeconds = st.displayedSeconds ∧
    (heartbeatTick pids uid now st).storedExpiresAt
      = some (now + RESERVATION_MS) := by
  refine ⟨?_, rfl, rfl⟩
  unfold handleExtendReservation startReservationTimer startTimerExpiry
    updateCountdown
  simp [RESERVATION_MS]
